import Mathlib

/-!
Shallow embedding of the notification / rating trigger subsystem of the
ALAN_NEW restaurant platform (Postgres trigger functions under `supabase/`),
together with theorems settling the specification claims about it.

Numeric columns (`numeric(2,1)`, `numeric(3,2)` and the `round` function of
the database) are modelled over `ℚ`; `round` on a `numeric` value rounds
half away from zero, and a cast to `numeric(p,s)` rounds the value to `s`
fractional digits with the same tie rule.  SQL `uuid` keys are modelled as
`Nat`; nullable columns as `Option`.
-/

namespace AlanNew

/-- Rounding of a rational to an integer, half away from zero: the behaviour
of Postgres `round(numeric)` and of a cast to an integer-scaled numeric. -/
def pgRound (x : ℚ) : ℤ :=
  if x < 0 then -⌊(1 : ℚ) / 2 - x⌋ else ⌊x + (1 : ℚ) / 2⌋

/-- Rounding of a rational to `s` fractional decimal digits, half away from
zero: the behaviour of a cast to `numeric(p, s)`. -/
def roundScale (x : ℚ) (s : ℕ) : ℚ :=
  (pgRound (x * (10 : ℚ) ^ s) : ℚ) / (10 : ℚ) ^ s

/-- A row of `public.restaurant_ratings` (file
`supabase/test_all_notifications_and_filters.sql`): id, restaurant and
customer references, optional order reference, and the stored
`numeric(2,1)` rating value. -/
structure Rating where
  id : Nat
  restaurant_id : Nat
  customer_id : Nat
  order_id : Option Nat
  rating : ℚ
deriving DecidableEq

/-- The rating rows of a given restaurant: the
`where restaurant_id = p_restaurant_id` selection of
`recalculate_restaurant_rating`. -/
def ratingsFor (ratings : List Rating) (rid : Nat) : List Rating :=
  ratings.filter fun r => r.restaurant_id == rid

/-- The exact arithmetic mean of a restaurant's rating values (used to state
results about the aggregate; `avg` in the SQL). -/
def meanRating (ratings : List Rating) (rid : Nat) : ℚ :=
  ((ratingsFor ratings rid).map Rating.rating).sum / ((ratingsFor ratings rid).length : ℚ)

/-- `select avg(rating)::numeric(3,2) ... where restaurant_id = p_restaurant_id`
of `recalculate_restaurant_rating`: `none` when the restaurant has no rating
rows, otherwise the mean cast to two fractional digits. -/
def customerAvg (ratings : List Rating) (rid : Nat) : Option ℚ :=
  if (ratingsFor ratings rid).isEmpty then none
  else some (roundScale (meanRating ratings rid) 2)

/-- The `rating` column of `public.restaurants`, as a map from restaurant id
to its (nullable) displayed rating. -/
abbrev RestaurantRatings : Type := Nat → Option ℚ

/-- `public.recalculate_restaurant_rating` (file
`supabase/test_all_notifications_and_filters.sql`): if the restaurant has any
customer ratings, overwrite its displayed rating with
`round(v_customer_avg * 10) / 10.0`; otherwise leave the table untouched. -/
def recalculate_restaurant_rating (ratings : List Rating) (rid : Nat)
    (restaurants : RestaurantRatings) : RestaurantRatings :=
  match customerAvg ratings rid with
  | none => restaurants
  | some v_customer_avg =>
      let v_final : ℚ := (pgRound (v_customer_avg * 10) : ℚ) / 10
      fun i => if i = rid then some v_final else restaurants i

/-- The three row-level operations the trigger
`trg_restaurant_ratings_change` reacts to, with the OLD/NEW rows. -/
inductive RatingOp where
  | ins (new : Rating)
  | upd (old new : Rating)
  | del (old : Rating)

/-- `public.handle_restaurant_rating_change`: the AFTER-row trigger body.
`ratings` is the state of `restaurant_ratings` after the mutation (the
trigger fires AFTER the row change). -/
def handle_restaurant_rating_change (op : RatingOp) (ratings : List Rating)
    (restaurants : RestaurantRatings) : RestaurantRatings :=
  match op with
  | .ins new => recalculate_restaurant_rating ratings new.restaurant_id restaurants
  | .upd old new =>
      let s := if new.restaurant_id ≠ old.restaurant_id then
          recalculate_restaurant_rating ratings old.restaurant_id restaurants
        else restaurants
      recalculate_restaurant_rating ratings new.restaurant_id s
  | .del old => recalculate_restaurant_rating ratings old.restaurant_id restaurants

/-- Whether a trigger operation touches the given restaurant id (the
restaurants the trigger recalculates). -/
def ratingAffected : RatingOp → Nat → Prop
  | .ins new, rid => new.restaurant_id = rid
  | .upd old new, rid => new.restaurant_id = rid ∨ old.restaurant_id = rid
  | .del old, rid => old.restaurant_id = rid

/-- Modelled from the claim's words (for comparison with the code): the
arithmetic mean of a restaurant's rating values rounded once to one decimal
place, half up at the tenths digit. -/
def claimRoundedMean (ratings : List Rating) (rid : Nat) : ℚ :=
  roundScale (meanRating ratings rid) 1

/-- Coercion of a value into the `numeric(2,1)` column type of
`restaurant_ratings.rating`: round to one fractional digit. -/
def numericScale1 (x : ℚ) : ℚ :=
  (pgRound (x * 10) : ℚ) / 10

/-- The `unique (restaurant_id, customer_id, order_id)` constraint check of
`restaurant_ratings` under Postgres semantics: a new row conflicts with an
existing one only when restaurant and customer agree and both order
references are non-null and equal (SQL nulls are distinct in a unique
constraint). -/
def ratingConflict (tbl : List Rating) (r : Rating) : Bool :=
  tbl.any fun s =>
    s.restaurant_id == r.restaurant_id && s.customer_id == r.customer_id &&
      (match r.order_id, s.order_id with
       | some a, some b => a == b
       | _, _ => false)

/-- Insertion into `public.restaurant_ratings`: the value is coerced to
`numeric(2,1)`, the check constraint `rating >= 1 and rating <= 5` and the
unique constraint are enforced; `none` means the insert is rejected. -/
def insertRating (tbl : List Rating) (r : Rating) : Option (List Rating) :=
  let stored : Rating := { r with rating := numericScale1 r.rating }
  if (1 : ℚ) ≤ stored.rating ∧ stored.rating ≤ 5 then
    if ratingConflict tbl stored then none else some (tbl ++ [stored])
  else none

/-- The states of `restaurant_ratings` reachable by accepted inserts from the
empty table. -/
inductive ReachableRatingsTable : List Rating → Prop where
  | nil : ReachableRatingsTable []
  | ins {t t' : List Rating} {r : Rating} (ht : ReachableRatingsTable t)
      (heq : insertRating t r = some t') : ReachableRatingsTable t'

/-- The per-row invariant the claims ascribe to stored rating values:
between 1 and 5 inclusive, at one-decimal granularity. -/
def ratingRowInvariant (r : Rating) : Prop :=
  1 ≤ r.rating ∧ r.rating ≤ 5 ∧ ∃ k : ℤ, r.rating = (k : ℚ) / 10

/-- A row of `public.blog_comments` (file `supabase/config-blog.sql`):
a null `parent_comment_id` marks a root comment, a non-null one a reply. -/
structure Comment where
  id : Nat
  blog_post_id : Nat
  customer_id : Nat
  content : String
  parent_comment_id : Option Nat
deriving DecidableEq

/-- A row of `public.blog_posts`. -/
structure BlogPost where
  id : Nat
  restaurant_id : Nat
  title : String
  is_published : Bool
deriving DecidableEq

/-- A row of `public.restaurants` (the columns the triggers read). -/
structure Restaurant where
  id : Nat
  name : String
deriving DecidableEq

/-- A row of `auth.users` (the columns the triggers read). -/
structure AuthUser where
  id : Nat
  email : String
deriving DecidableEq

/-- A row of `public.profiles` (the columns the triggers read);
`full_name` is nullable. -/
structure Profile where
  id : Nat
  full_name : Option String
deriving DecidableEq

/-- A row of `public.customer_notifications` with the columns the triggers
write (`supabase/FIXED_COMPLETE_SCRIPT.sql` adds `blog_post_id`,
`reply_content`, `restaurant_name`). -/
structure CustomerNotification where
  customer_id : Nat
  order_id : Option Nat
  title : String
  message : String
  status : String
  blog_post_id : Option Nat
  reply_content : Option String
  restaurant_name : Option String
deriving DecidableEq

/-- A row of `public.blog_comment_notifications` (file
`supabase/create_blog_comment_notifications_table.sql`). -/
structure BlogCommentNotification where
  restaurant_id : Nat
  customer_id : Nat
  blog_post_id : Nat
  comment_id : Nat
  title : String
  message : String
  status : String
  comment_content : Option String
deriving DecidableEq

/-- The database context the comment triggers read. -/
structure BlogDB where
  comments : List Comment
  posts : List BlogPost
  restaurants : List Restaurant
  users : List AuthUser
  profiles : List Profile

/-- The 100-character preview truncation both comment triggers apply:
`case when length(c) > 100 then left(c, 97) || '...' else c end`. -/
def truncatePreview (content : String) : String :=
  if content.length > 100 then content.take 97 ++ "..." else content

/-- `select customer_id from blog_comments where id = ...` in
`handle_blog_comment_reply`: the parent comment's author, if the parent row
exists. -/
def lookupParentAuthor (db : BlogDB) (pid : Nat) : Option Nat :=
  (db.comments.find? fun c => c.id == pid).map Comment.customer_id

/-- `select r.name from blog_posts bp join restaurants r ... where bp.id = ...`:
the restaurant name reachable from a post, if both rows exist. -/
def lookupRestaurantName (db : BlogDB) (postId : Nat) : Option String :=
  match db.posts.find? fun p => p.id == postId with
  | none => none
  | some p => (db.restaurants.find? fun r => r.id == p.restaurant_id).map Restaurant.name

/-- `public.handle_blog_comment_reply` (file
`supabase/FIXED_COMPLETE_SCRIPT.sql`): the AFTER-insert trigger on
`blog_comments`; returns the customer notification row it inserts, or
`none` when it inserts nothing. -/
def handle_blog_comment_reply (db : BlogDB) (new : Comment) : Option CustomerNotification :=
  match new.parent_comment_id with
  | none => none
  | some pid =>
    match lookupParentAuthor db pid with
    | none => none
    | some v_customer_id =>
      let v_restaurant_name := lookupRestaurantName db new.blog_post_id
      let v_reply_content := new.content
      let v_notification_message :=
        (v_restaurant_name.getD "Restaurant") ++ " replied: \"" ++
          truncatePreview v_reply_content ++ "\""
      some ⟨v_customer_id, none, "Comment Reply", v_notification_message, "unread",
        some new.blog_post_id, some v_reply_content, v_restaurant_name⟩

/-- `split_part(email, '@', 1)`: the portion of a string before the first
`@`, or the whole string when it has none. -/
def emailLocalPart (s : String) : String :=
  (s.splitOn "@").headD s

/-- `select coalesce(p.full_name, split_part(u.email, '@', 1)) from auth.users u
left join profiles p on p.id = u.id where u.id = ...` in
`handle_blog_comment_notification`. -/
def lookupCustomerName (db : BlogDB) (cid : Nat) : Option String :=
  match db.users.find? fun u => u.id == cid with
  | none => none
  | some u =>
      some (((db.profiles.find? fun p => p.id == cid).bind Profile.full_name).getD
        (emailLocalPart u.email))

/-- `public.handle_blog_comment_notification` (file
`supabase/create_blog_comment_notifications_table.sql`): the AFTER-insert
trigger on `blog_comments` that notifies the restaurant owner of a new root
comment; returns the row it inserts, or `none`. -/
def handle_blog_comment_notification (db : BlogDB) (new : Comment) :
    Option BlogCommentNotification :=
  match new.parent_comment_id with
  | some _ => none
  | none =>
    match db.posts.find? fun p => p.id == new.blog_post_id with
    | none => none
    | some post =>
      let v_customer_name := lookupCustomerName db new.customer_id
      let v_notification_message :=
        (v_customer_name.getD "A customer") ++ " commented on your blog post \"" ++
          post.title ++ "\": \"" ++ truncatePreview new.content ++ "\""
      some ⟨post.restaurant_id, new.customer_id, new.blog_post_id, new.id,
        "New Blog Comment", v_notification_message, "unread", some new.content⟩

/-- Insertion into `public.blog_comment_notifications` under its
`blog_comment_notifications_comment_id_unique` constraint (`comment_id` is
not nullable): `none` means the insert is rejected. -/
def insertOwnerNotification (tbl : List BlogCommentNotification)
    (n : BlogCommentNotification) : Option (List BlogCommentNotification) :=
  if tbl.any fun m => m.comment_id == n.comment_id then none
  else some (tbl ++ [n])

/-- A row of `public.orders` (the columns
`handle_order_status_rating_prompt` reads). -/
structure Order where
  id : Nat
  customer_id : Option Nat
  restaurant_id : Option Nat
  status : String
deriving DecidableEq

/-- The fixed body of the rating-prompt notification. -/
def ratingPromptMessage : String :=
  "Your order is completed and it will be served in a short while. Please give us rating for our service."

/-- `public.handle_order_status_rating_prompt` (file
`supabase/test_all_notifications_and_filters.sql`): the AFTER-update trigger
on `orders`; returns the customer notification row it inserts, or `none`. -/
def handle_order_status_rating_prompt (ratings : List Rating) (old new : Order) :
    Option CustomerNotification :=
  match new.customer_id, new.restaurant_id with
  | some c, some r =>
    if (new.status = "completed" ∨ new.status = "served") ∧ old.status ≠ new.status then
      if (ratings.find? fun rt =>
            rt.restaurant_id == r && rt.customer_id == c && rt.order_id == some new.id).isSome
      then none
      else some ⟨c, some new.id, "Your order is completed", ratingPromptMessage, "unread",
        none, none, none⟩
    else none
  | _, _ => none

/-- A sample rating row used to instantiate theorems with hypotheses. -/
def sampleRating : Rating := ⟨0, 1, 0, none, 3⟩

/-- A sample order before a status update. -/
def orderBefore : Order := ⟨5, some 7, some 3, "preparing"⟩

/-- The sample order after its status moved to `completed`. -/
def orderAfter : Order := ⟨5, some 7, some 3, "completed"⟩

/-- An order with no customer reference. -/
def orderNoCustomer : Order := ⟨6, none, some 3, "completed"⟩

/-- A root comment by customer 7 on post 10. -/
def parentComment : Comment := ⟨1, 10, 7, "Great food!", none⟩

/-- A 101-character content (one hundred and one times the letter x). -/
def longContent : String := String.mk (List.replicate 101 (Char.ofNat 120))

/-- A reply to `parentComment` whose content is 101 characters long. -/
def longReply : Comment := ⟨2, 10, 8, longContent, some 1⟩

/-- A short reply to `parentComment`. -/
def shortReply : Comment := ⟨2, 10, 8, "Thanks!", some 1⟩

/-- The post the sample comments live on, owned by restaurant 3. -/
def samplePost : BlogPost := ⟨10, 3, "Weekly special", true⟩

/-- The restaurant owning `samplePost`. -/
def sampleRestaurant : Restaurant := ⟨3, "Yangon Bistro"⟩

/-- The auth record of customer 7. -/
def sampleUser : AuthUser := ⟨7, "maya@example.com"⟩

/-- Customer 7 has a profile row without a stored full name. -/
def sampleProfile : Profile := ⟨7, none⟩

/-- A database holding the sample rows above. -/
def sampleDB : BlogDB :=
  ⟨[parentComment], [samplePost], [sampleRestaurant], [sampleUser], [sampleProfile]⟩

/-- A database with no rows at all. -/
def emptyDB : BlogDB := ⟨[], [], [], [], []⟩

/-- A database holding the parent comment but neither its post nor any
restaurant row. -/
def noRestaurantDB : BlogDB := ⟨[parentComment], [], [], [], []⟩

/-- The notification the reply trigger produces for `longReply` over
`sampleDB`: its message preview holds only the first 97 characters. -/
def longReplyNotif : CustomerNotification :=
  ⟨7, none, "Comment Reply",
    "Yangon Bistro replied: \"" ++ String.mk (List.replicate 97 (Char.ofNat 120)) ++ "...\"",
    "unread", some 10, some longContent, some "Yangon Bistro"⟩

/-- A sample owner notification for comment 1. -/
def ownerNotifA : BlogCommentNotification :=
  ⟨3, 7, 10, 1, "New Blog Comment", "msg a", "unread", some "Great food!"⟩

/-- A second owner notification carrying the same comment id as
`ownerNotifA`. -/
def ownerNotifB : BlogCommentNotification :=
  ⟨3, 7, 10, 1, "New Blog Comment", "msg b", "unread", some "Great food!"⟩

/-- A rating of 3 by customer 1 for restaurant 1, with no order reference. -/
def c8FirstInsert : Rating := ⟨1, 1, 1, none, 3⟩

/-- A rating of 4 by the same customer for the same restaurant, again with a
null order reference. -/
def c8SecondInsert : Rating := ⟨2, 1, 1, none, 4⟩

/-- Twenty rating rows of restaurant 1: nineteen ratings of 3.2 and one of
4.1, whose mean is 3.245. -/
def c1Table : List Rating :=
  [⟨0, 1, 0, none, 16 / 5⟩, ⟨1, 1, 1, none, 16 / 5⟩, ⟨2, 1, 2, none, 16 / 5⟩,
   ⟨3, 1, 3, none, 16 / 5⟩, ⟨4, 1, 4, none, 16 / 5⟩, ⟨5, 1, 5, none, 16 / 5⟩,
   ⟨6, 1, 6, none, 16 / 5⟩, ⟨7, 1, 7, none, 16 / 5⟩, ⟨8, 1, 8, none, 16 / 5⟩,
   ⟨9, 1, 9, none, 16 / 5⟩, ⟨10, 1, 10, none, 16 / 5⟩, ⟨11, 1, 11, none, 16 / 5⟩,
   ⟨12, 1, 12, none, 16 / 5⟩, ⟨13, 1, 13, none, 16 / 5⟩, ⟨14, 1, 14, none, 16 / 5⟩,
   ⟨15, 1, 15, none, 16 / 5⟩, ⟨16, 1, 16, none, 16 / 5⟩, ⟨17, 1, 17, none, 16 / 5⟩,
   ⟨18, 1, 18, none, 16 / 5⟩, ⟨19, 1, 19, none, 41 / 10⟩]

/-- The last row of `c1Table`, taken as the row whose insert fired the
aggregation trigger. -/
def c1NewRow : Rating := ⟨19, 1, 19, none, 41 / 10⟩

theorem ratingsFor_c1Table : ratingsFor c1Table 1 = c1Table := rfl

theorem meanRating_c1Table : meanRating c1Table 1 = 649 / 200 := by
  rw [meanRating, ratingsFor_c1Table]
  show ((c1Table.map Rating.rating).sum) / ((20 : ℕ) : ℚ) = 649 / 200
  simp [c1Table]
  norm_num

theorem recalc_write (ratings : List Rating) (rid : Nat) (restaurants : RestaurantRatings)
    (h : ratingsFor ratings rid ≠ []) :
    recalculate_restaurant_rating ratings rid restaurants rid
      = some (roundScale (roundScale (meanRating ratings rid) 2) 1) := by
  have hemp : (ratingsFor ratings rid).isEmpty = false := by
    cases hl : ratingsFor ratings rid with
    | nil => exact absurd hl h
    | cons a t => rfl
  have havg : customerAvg ratings rid = some (roundScale (meanRating ratings rid) 2) := by
    rw [customerAvg, hemp]
    rfl
  rw [recalculate_restaurant_rating, havg]
  simp [roundScale]

theorem recalc_other (ratings : List Rating) (rid : Nat) (restaurants : RestaurantRatings)
    (i : Nat) (h : i ≠ rid) :
    recalculate_restaurant_rating ratings rid restaurants i = restaurants i := by
  rw [recalculate_restaurant_rating]
  cases customerAvg ratings rid with
  | none => rfl
  | some v => simp [h]

theorem recalc_empty (ratings : List Rating) (rid : Nat) (restaurants : RestaurantRatings)
    (h : ratingsFor ratings rid = []) :
    recalculate_restaurant_rating ratings rid restaurants = restaurants := by
  have hemp : (ratingsFor ratings rid).isEmpty = true := by rw [h]; rfl
  have havg : customerAvg ratings rid = none := by rw [customerAvg, hemp]; rfl
  rw [recalculate_restaurant_rating, havg]

/-- C1 (counterexample): with nineteen ratings of 3.2 and one of 4.1 the mean
is 3.245; the code stores 3.3 (the mean is first cast to `numeric(3,2)`,
giving 3.25, and then rounded at the tenths), while the claim's single
round-half-up at the tenths digit gives 3.2. -/
theorem C1_counterexample :
    handle_restaurant_rating_change (.ins c1NewRow) c1Table (fun _ => none) 1
      = some (33 / 10)
    ∧ claimRoundedMean c1Table 1 = 16 / 5
    ∧ ((33 : ℚ) / 10) ≠ 16 / 5 := by
  refine ⟨?_, ?_, by norm_num⟩
  · show recalculate_restaurant_rating c1Table 1 (fun _ => none) 1 = some (33 / 10)
    have havg : customerAvg c1Table 1 = some (13 / 4) := by
      have hemp : (ratingsFor c1Table 1).isEmpty = false := rfl
      rw [customerAvg, hemp, meanRating_c1Table]
      norm_num [roundScale, pgRound]
    rw [recalculate_restaurant_rating, havg]
    norm_num [pgRound]
  · rw [claimRoundedMean, meanRating_c1Table]
    norm_num [roundScale, pgRound]

/-- C1 (amended): after any insert, update or delete of a rating row, every
affected restaurant that has at least one rating row gets, as its rating
field, the arithmetic mean of its rating values rounded half-up first to two
decimal places (the `numeric(3,2)` cast) and then half-up at the tenths
digit; on an update that changes the restaurant reference both the old and
the new restaurant are recomputed this way. -/
theorem C1_rating_aggregation (op : RatingOp) (ratings : List Rating)
    (restaurants : RestaurantRatings) (rid : Nat)
    (haff : ratingAffected op rid) (hne : ratingsFor ratings rid ≠ []) :
    handle_restaurant_rating_change op ratings restaurants rid
      = some (roundScale (roundScale (meanRating ratings rid) 2) 1) := by
  cases op with
  | ins new =>
    have h : new.restaurant_id = rid := haff
    simp only [handle_restaurant_rating_change]
    rw [h]
    exact recalc_write ratings rid restaurants hne
  | del old =>
    have h : old.restaurant_id = rid := haff
    simp only [handle_restaurant_rating_change]
    rw [h]
    exact recalc_write ratings rid restaurants hne
  | upd old new =>
    have h : new.restaurant_id = rid ∨ old.restaurant_id = rid := haff
    simp only [handle_restaurant_rating_change]
    by_cases hnew : new.restaurant_id = rid
    · rw [hnew]
      exact recalc_write ratings rid _ hne
    · have hold : old.restaurant_id = rid := h.resolve_left hnew
      rw [recalc_other ratings new.restaurant_id _ rid fun hh => hnew hh.symm]
      have hne2 : new.restaurant_id ≠ old.restaurant_id := by
        rw [hold]; exact hnew
      rw [if_pos hne2, hold]
      exact recalc_write ratings rid restaurants hne

/-- C1 (witness): the amended theorem applied to a one-row table. -/
theorem C1_rating_aggregation_witness :
    handle_restaurant_rating_change (.ins sampleRating) [sampleRating] (fun _ => none) 1
      = some (roundScale (roundScale (meanRating [sampleRating] 1) 2) 1) :=
  C1_rating_aggregation (.ins sampleRating) [sampleRating] (fun _ => none) 1 rfl (by decide)

/-- C5: when the rating rows of a restaurant are all gone after a delete (or
after an update that moved the rating to another restaurant), the aggregator
performs no write there: on delete the whole restaurants table is returned
unchanged, and on a moving update the old restaurant keeps its previous
rating value. -/
theorem C5_empty_preserves_rating (ratings : List Rating)
    (restaurants : RestaurantRatings) (old : Rating)
    (h : ratingsFor ratings old.restaurant_id = []) :
    handle_restaurant_rating_change (.del old) ratings restaurants = restaurants
    ∧ ∀ new : Rating, new.restaurant_id ≠ old.restaurant_id →
        handle_restaurant_rating_change (.upd old new) ratings restaurants old.restaurant_id
          = restaurants old.restaurant_id := by
  constructor
  · simp only [handle_restaurant_rating_change]
    exact recalc_empty _ _ _ h
  · intro new hne
    simp only [handle_restaurant_rating_change]
    rw [if_pos hne, recalc_empty _ _ _ h]
    exact recalc_other _ _ _ _ (Ne.symm hne)

/-- C5 (witness): deleting the only rating row of restaurant 1 leaves the
restaurants table untouched. -/
theorem C5_empty_preserves_rating_witness :
    handle_restaurant_rating_change (.del sampleRating) [] (fun _ => some (4 : ℚ))
      = (fun _ => some (4 : ℚ)) :=
  (C5_empty_preserves_rating [] (fun _ => some (4 : ℚ)) sampleRating (by decide)).1

/-- C2: for an order update with a customer and a restaurant, the trigger
inserts exactly one rating-prompt notification (fixed title and message,
unread, linked to the order) when the new status is `completed` or `served`,
it differs from the old status, and no rating row matches the
(restaurant, customer, order) triple; it inserts nothing when the status is
re-saved unchanged, and nothing when the new status is non-terminal. -/
theorem C2_rating_prompt (ratings : List Rating) (old new : Order) (c r : Nat)
    (hc : new.customer_id = some c) (hr : new.restaurant_id = some r) :
    ((new.status = "completed" ∨ new.status = "served") → old.status ≠ new.status →
      (∀ rt ∈ ratings,
        ¬(rt.restaurant_id = r ∧ rt.customer_id = c ∧ rt.order_id = some new.id)) →
      handle_order_status_rating_prompt ratings old new
        = some ⟨c, some new.id, "Your order is completed", ratingPromptMessage, "unread",
            none, none, none⟩)
    ∧ (old.status = new.status → handle_order_status_rating_prompt ratings old new = none)
    ∧ (new.status ≠ "completed" → new.status ≠ "served" →
        handle_order_status_rating_prompt ratings old new = none) := by
  have hred : handle_order_status_rating_prompt ratings old new
      = if (new.status = "completed" ∨ new.status = "served") ∧ old.status ≠ new.status then
          (if (ratings.find? fun rt =>
                rt.restaurant_id == r && rt.customer_id == c &&
                  rt.order_id == some new.id).isSome
           then none
           else some ⟨c, some new.id, "Your order is completed", ratingPromptMessage,
             "unread", none, none, none⟩)
        else none := by
    unfold handle_order_status_rating_prompt
    rw [hc, hr]
  rw [hred]
  refine ⟨?_, ?_, ?_⟩
  · intro hst hneq hno
    rw [if_pos ⟨hst, hneq⟩]
    have hfind : (ratings.find? fun rt =>
        rt.restaurant_id == r && rt.customer_id == c && rt.order_id == some new.id) = none := by
      rw [List.find?_eq_none]
      intro x hx hmatch
      simp only [Bool.and_eq_true, beq_iff_eq] at hmatch
      exact hno x hx ⟨hmatch.1.1, hmatch.1.2, hmatch.2⟩
    rw [hfind]
    rfl
  · intro heq
    rw [if_neg fun hcond => hcond.2 heq]
  · intro h1 h2
    rw [if_neg fun hcond => hcond.1.elim h1 h2]

/-- C2 (witness): a `preparing → completed` update with no matching rating
inserts the prompt notification. -/
theorem C2_rating_prompt_witness :
    handle_order_status_rating_prompt [] orderBefore orderAfter
      = some ⟨7, some 5, "Your order is completed", ratingPromptMessage, "unread",
          none, none, none⟩ :=
  (C2_rating_prompt [] orderBefore orderAfter 7 3 rfl rfl).1 (Or.inl rfl) (by decide)
    (by simp)

/-- C9: when the updated order has no customer reference or no restaurant
reference, the rating-prompt trigger inserts nothing, whatever the status
transition. -/
theorem C9_null_refs_no_prompt (ratings : List Rating) (old new : Order)
    (h : new.customer_id = none ∨ new.restaurant_id = none) :
    handle_order_status_rating_prompt ratings old new = none := by
  unfold handle_order_status_rating_prompt
  rcases h with h | h
  · rw [h]
  · rw [h]
    cases new.customer_id <;> rfl

/-- C9 (witness): an update of an order with no customer reference inserts
nothing even on a transition into `completed`. -/
theorem C9_null_refs_no_prompt_witness :
    handle_order_status_rating_prompt [] orderBefore orderNoCustomer = none :=
  C9_null_refs_no_prompt [] orderBefore orderNoCustomer (Or.inl rfl)

set_option maxRecDepth 10000 in
/-- C3 (counterexample): for a 101-character reply the claim asks the message
to contain the first min(100, 101) = 100 characters of the content; the code
puts only the first 97 characters before the ellipsis, so the produced
message does not contain the first 100 characters at all. -/
theorem C3_counterexample :
    handle_blog_comment_reply sampleDB longReply = some longReplyNotif
    ∧ ¬ ((longReply.content.take (min 100 longReply.content.length)).toList
          <:+: longReplyNotif.message.toList) := by
  constructor
  · decide
  · decide

/-- C3 (amended): every inserted reply whose parent author resolves yields
exactly one customer notification: recipient the parent author, status
unread, the post linked, `reply_content` the reply text verbatim, and a
message holding the first 97 characters of the content followed by an
ellipsis when the content exceeds 100 characters, the full content
otherwise. -/
theorem C3_reply_notification (db : BlogDB) (new : Comment) (pid : Nat)
    (hp : new.parent_comment_id = some pid) (cust : Nat)
    (ha : lookupParentAuthor db pid = some cust) :
    handle_blog_comment_reply db new = some
      ⟨cust, none, "Comment Reply",
        ((lookupRestaurantName db new.blog_post_id).getD "Restaurant") ++ " replied: \"" ++
          (if 100 < new.content.length then new.content.take 97 ++ "..." else new.content) ++
          "\"",
        "unread", some new.blog_post_id, some new.content,
        lookupRestaurantName db new.blog_post_id⟩ := by
  have h1 : handle_blog_comment_reply db new
      = match lookupParentAuthor db pid with
        | none => none
        | some v_customer_id =>
            some ⟨v_customer_id, none, "Comment Reply",
              ((lookupRestaurantName db new.blog_post_id).getD "Restaurant") ++ " replied: \"" ++
                truncatePreview new.content ++ "\"",
              "unread", some new.blog_post_id, some new.content,
              lookupRestaurantName db new.blog_post_id⟩ := by
    unfold handle_blog_comment_reply
    rw [hp]
  rw [h1, ha]
  rfl

/-- C3 (witness): the amended theorem applied to a short reply in the sample
database. -/
theorem C3_reply_notification_witness :
    handle_blog_comment_reply sampleDB shortReply = some
      ⟨7, none, "Comment Reply",
        ((lookupRestaurantName sampleDB shortReply.blog_post_id).getD "Restaurant") ++
          " replied: \"" ++
          (if 100 < shortReply.content.length then shortReply.content.take 97 ++ "..."
           else shortReply.content) ++ "\"",
        "unread", some shortReply.blog_post_id, some shortReply.content,
        lookupRestaurantName sampleDB shortReply.blog_post_id⟩ :=
  C3_reply_notification sampleDB shortReply 1 rfl 7 rfl

/-- C6: when the parent comment of a reply cannot be resolved the reply
trigger inserts nothing (and raises nothing: it returns normally); when the
parent author resolves but the restaurant name does not, the notification is
still inserted with the generic label Restaurant in the message and a null
stored restaurant name. -/
theorem C6_reply_resolution_misses (db : BlogDB) (new : Comment) (pid : Nat)
    (hp : new.parent_comment_id = some pid) :
    (lookupParentAuthor db pid = none → handle_blog_comment_reply db new = none)
    ∧ (∀ cust, lookupParentAuthor db pid = some cust →
        lookupRestaurantName db new.blog_post_id = none →
        handle_blog_comment_reply db new = some
          ⟨cust, none, "Comment Reply",
            "Restaurant replied: \"" ++ truncatePreview new.content ++ "\"",
            "unread", some new.blog_post_id, some new.content, none⟩) := by
  have h1 : handle_blog_comment_reply db new
      = match lookupParentAuthor db pid with
        | none => none
        | some v_customer_id =>
            some ⟨v_customer_id, none, "Comment Reply",
              ((lookupRestaurantName db new.blog_post_id).getD "Restaurant") ++ " replied: \"" ++
                truncatePreview new.content ++ "\"",
              "unread", some new.blog_post_id, some new.content,
              lookupRestaurantName db new.blog_post_id⟩ := by
    unfold handle_blog_comment_reply
    rw [hp]
  constructor
  · intro ha
    rw [h1, ha]
  · intro cust ha hr
    rw [h1, ha, hr]
    rfl

/-- C6 (witness): over an empty database the reply trigger is a no-op, and
with the parent present but the post row missing the message falls back to
the generic Restaurant label. -/
theorem C6_reply_resolution_misses_witness :
    handle_blog_comment_reply emptyDB shortReply = none
    ∧ handle_blog_comment_reply noRestaurantDB shortReply = some
        ⟨7, none, "Comment Reply",
          "Restaurant replied: \"" ++ truncatePreview shortReply.content ++ "\"",
          "unread", some shortReply.blog_post_id, some shortReply.content, none⟩ :=
  ⟨(C6_reply_resolution_misses emptyDB shortReply 1 rfl).1 rfl,
   (C6_reply_resolution_misses noRestaurantDB shortReply 1 rfl).2 7 rfl rfl⟩

/-- C4: a root comment whose post resolves produces exactly one owner
notification carrying the post's restaurant id and the comment's id, and any
further insert with that same comment id is rejected by the uniqueness
constraint on `comment_id`. -/
theorem C4_owner_notification_unique (db : BlogDB) (new : Comment)
    (hroot : new.parent_comment_id = none) (post : BlogPost)
    (hpost : db.posts.find? (fun p => p.id == new.blog_post_id) = some post)
    (_hpub : post.is_published = true) :
    (∃ n, handle_blog_comment_notification db new = some n ∧
      n.restaurant_id = post.restaurant_id ∧ n.comment_id = new.id)
    ∧ ∀ (tbl : List BlogCommentNotification) (m n2 : BlogCommentNotification),
        m ∈ tbl → n2.comment_id = m.comment_id →
        insertOwnerNotification tbl n2 = none := by
  constructor
  · have h1 : handle_blog_comment_notification db new
        = match db.posts.find? fun p => p.id == new.blog_post_id with
          | none => none
          | some post =>
              some ⟨post.restaurant_id, new.customer_id, new.blog_post_id, new.id,
                "New Blog Comment",
                ((lookupCustomerName db new.customer_id).getD "A customer") ++
                  " commented on your blog post \"" ++ post.title ++ "\": \"" ++
                  truncatePreview new.content ++ "\"",
                "unread", some new.content⟩ := by
      unfold handle_blog_comment_notification
      rw [hroot]
    rw [h1, hpost]
    exact ⟨_, rfl, rfl, rfl⟩
  · intro tbl m n2 hm he
    have hany : (tbl.any fun mm => mm.comment_id == n2.comment_id) = true :=
      List.any_eq_true.mpr ⟨m, hm, beq_iff_eq.mpr he.symm⟩
    rw [insertOwnerNotification, if_pos hany]

/-- C4 (witness): the theorem applied to the sample root comment, and the
rejection of a duplicate owner notification for comment 1. -/
theorem C4_owner_notification_unique_witness :
    (∃ n, handle_blog_comment_notification sampleDB parentComment = some n ∧
      n.restaurant_id = samplePost.restaurant_id ∧ n.comment_id = parentComment.id)
    ∧ insertOwnerNotification [ownerNotifA] ownerNotifB = none :=
  ⟨(C4_owner_notification_unique sampleDB parentComment rfl samplePost rfl rfl).1,
   (C4_owner_notification_unique sampleDB parentComment rfl samplePost rfl rfl).2
     [ownerNotifA] ownerNotifA ownerNotifB (by decide) rfl⟩

/-- C7: the owner notification for a root comment whose commenting user
exists carries the message, customer display name preferring the stored
profile full name and falling back to the email local part, with the post
title and the (possibly truncated) comment text. -/
theorem C7_owner_message_format (db : BlogDB) (new : Comment)
    (hroot : new.parent_comment_id = none) (post : BlogPost)
    (hpost : db.posts.find? (fun p => p.id == new.blog_post_id) = some post)
    (u : AuthUser) (hu : db.users.find? (fun x => x.id == new.customer_id) = some u) :
    ∃ n, handle_blog_comment_notification db new = some n ∧
      n.message = (((db.profiles.find? fun p => p.id == new.customer_id).bind
            Profile.full_name).getD (emailLocalPart u.email)) ++
        " commented on your blog post \"" ++ post.title ++ "\": \"" ++
        truncatePreview new.content ++ "\"" := by
  have hname : lookupCustomerName db new.customer_id
      = some (((db.profiles.find? fun p => p.id == new.customer_id).bind
          Profile.full_name).getD (emailLocalPart u.email)) := by
    unfold lookupCustomerName
    rw [hu]
  have h1 : handle_blog_comment_notification db new
      = match db.posts.find? fun p => p.id == new.blog_post_id with
        | none => none
        | some post =>
            some ⟨post.restaurant_id, new.customer_id, new.blog_post_id, new.id,
              "New Blog Comment",
              ((lookupCustomerName db new.customer_id).getD "A customer") ++
                " commented on your blog post \"" ++ post.title ++ "\": \"" ++
                truncatePreview new.content ++ "\"",
              "unread", some new.content⟩ := by
    unfold handle_blog_comment_notification
    rw [hroot]
  rw [h1, hpost]
  exact ⟨_, rfl, by rw [hname]; rfl⟩

/-- C7 (witness): the sample customer has no stored full name, so the
message shows the part of the email before the at sign. -/
theorem C7_owner_message_format_witness :
    ∃ n, handle_blog_comment_notification sampleDB parentComment = some n ∧
      n.message = (((sampleDB.profiles.find? fun p => p.id == parentComment.customer_id).bind
            Profile.full_name).getD (emailLocalPart sampleUser.email)) ++
        " commented on your blog post \"" ++ samplePost.title ++ "\": \"" ++
        truncatePreview parentComment.content ++ "\"" :=
  C7_owner_message_format sampleDB parentComment rfl samplePost rfl sampleUser rfl

/-- C10: the two comment triggers are guarded by complementary tests on the
parent reference: a reply (non-null parent reference) never yields an
owner-facing notification, and a root comment (null parent reference) never
yields a customer-facing reply notification, so each inserted comment fires
at most one of the two generators. -/
theorem C10_at_most_one_generator (db : BlogDB) (new : Comment) :
    (new.parent_comment_id ≠ none → handle_blog_comment_notification db new = none)
    ∧ (new.parent_comment_id = none → handle_blog_comment_reply db new = none) := by
  constructor
  · intro h
    cases hp : new.parent_comment_id with
    | none => exact absurd hp h
    | some pid =>
      unfold handle_blog_comment_notification
      rw [hp]
  · intro h
    unfold handle_blog_comment_reply
    rw [h]

/-- C10 (witness): the sample reply produces no owner notification and the
sample root comment produces no reply notification. -/
theorem C10_at_most_one_generator_witness :
    handle_blog_comment_notification sampleDB shortReply = none
    ∧ handle_blog_comment_reply sampleDB parentComment = none :=
  ⟨(C10_at_most_one_generator sampleDB shortReply).1 (by decide),
   (C10_at_most_one_generator sampleDB parentComment).2 rfl⟩

theorem numericScale1_three : numericScale1 3 = 3 := by
  norm_num [numericScale1, pgRound]

theorem numericScale1_four : numericScale1 4 = 4 := by
  norm_num [numericScale1, pgRound]

theorem c8_insert1 : insertRating [] c8FirstInsert = some [c8FirstInsert] := by
  norm_num [insertRating, c8FirstInsert, numericScale1_three, ratingConflict]

theorem c8_insert2 :
    insertRating [c8FirstInsert] c8SecondInsert = some [c8FirstInsert, c8SecondInsert] := by
  norm_num [insertRating, c8FirstInsert, c8SecondInsert, numericScale1_four, ratingConflict]

theorem insertRating_eq (tbl : List Rating) (r : Rating) (res : List Rating)
    (h : insertRating tbl r = some res) :
    (1 : ℚ) ≤ numericScale1 r.rating ∧ numericScale1 r.rating ≤ 5
    ∧ ratingConflict tbl { r with rating := numericScale1 r.rating } = false
    ∧ res = tbl ++ [{ r with rating := numericScale1 r.rating }] := by
  simp only [insertRating] at h
  split at h
  · split at h
    · exact absurd h (by simp)
    · rename_i h1 h2
      cases h
      exact ⟨h1.1, h1.2, Bool.eq_false_iff.mpr h2, rfl⟩
  · exact absurd h (by simp)

set_option maxRecDepth 2000 in
/-- C8 (counterexample): two rating rows with the same restaurant, the same
customer and a null order reference are both accepted by the unique
constraint (SQL nulls are distinct), so a reachable table holds two rows for
the triple (restaurant 1, customer 1, no order). -/
theorem C8_counterexample :
    ReachableRatingsTable [c8FirstInsert, c8SecondInsert]
    ∧ 2 ≤ ([c8FirstInsert, c8SecondInsert].countP fun r =>
        r.restaurant_id == 1 && r.customer_id == 1 && r.order_id == none) :=
  ⟨ReachableRatingsTable.ins (ReachableRatingsTable.ins ReachableRatingsTable.nil c8_insert1)
      c8_insert2,
   by decide⟩

/-- C8 (amended): in every table reachable by accepted inserts, each stored
rating value lies between 1 and 5 inclusive at one-decimal granularity, and
for each (restaurant, customer, order) triple whose order reference is
non-null there is at most one row; rows with a null order reference are not
deduplicated. -/
theorem C8_rating_invariants (t : List Rating) (h : ReachableRatingsTable t) :
    (∀ r ∈ t, ratingRowInvariant r)
    ∧ ∀ rid cid o : Nat,
        (t.countP fun r =>
          r.restaurant_id == rid && r.customer_id == cid && r.order_id == some o) ≤ 1 := by
  induction h with
  | nil => exact ⟨by simp, by simp⟩
  | ins ht heq ih =>
    rename_i t tres r
    obtain ⟨hc1, hc2, hconf, hres⟩ := insertRating_eq t r tres heq
    subst hres
    constructor
    · intro x hx
      rcases List.mem_append.mp hx with hx | hx
      · exact ih.1 x hx
      · rcases List.mem_singleton.mp hx with rfl
        exact ⟨hc1, hc2, pgRound (r.rating * 10), rfl⟩
    · intro rid cid o
      rw [List.countP_append]
      by_cases hp : (({ r with rating := numericScale1 r.rating } : Rating).restaurant_id == rid
          && ({ r with rating := numericScale1 r.rating } : Rating).customer_id == cid
          && ({ r with rating := numericScale1 r.rating } : Rating).order_id == some o) = true
      · have h0 : (t.countP fun s =>
            s.restaurant_id == rid && s.customer_id == cid && s.order_id == some o) = 0 := by
          rw [List.countP_eq_zero]
          intro a ha hpa
          simp only [Bool.and_eq_true, beq_iff_eq] at hp hpa
          have : ratingConflict t { r with rating := numericScale1 r.rating } = true := by
            refine List.any_eq_true.mpr ⟨a, ha, ?_⟩
            simp only [Bool.and_eq_true, beq_iff_eq]
            refine ⟨⟨by rw [hpa.1.1, hp.1.1], by rw [hpa.1.2, hp.1.2]⟩, ?_⟩
            rw [hp.2, hpa.2]
            simp
          rw [this] at hconf
          exact absurd hconf (by simp)
        have h2 : (List.countP (fun s =>
            s.restaurant_id == rid && s.customer_id == cid && s.order_id == some o)
            [({ r with rating := numericScale1 r.rating } : Rating)]) = 1 := by
          simp only [List.countP_cons, List.countP_nil]
          rw [if_pos hp]
        rw [h0, h2]
      · have h1 : (List.countP (fun s =>
            s.restaurant_id == rid && s.customer_id == cid && s.order_id == some o)
            [({ r with rating := numericScale1 r.rating } : Rating)]) = 0 := by
          simp only [List.countP_cons, List.countP_nil]
          rw [if_neg hp]
        rw [h1, Nat.add_zero]
        exact ih.2 rid cid o

/-- C8 (witness): the amended theorem applied to the reachable one-row
table. -/
theorem C8_rating_invariants_witness :
    (∀ r ∈ [c8FirstInsert], ratingRowInvariant r)
    ∧ ∀ rid cid o : Nat,
        ([c8FirstInsert].countP fun r =>
          r.restaurant_id == rid && r.customer_id == cid && r.order_id == some o) ≤ 1 :=
  C8_rating_invariants [c8FirstInsert]
    (ReachableRatingsTable.ins ReachableRatingsTable.nil c8_insert1)

end AlanNew
